import Mathlib

/-!
Shallow embedding of the RISC-V RHCT table generator
(`DynamicTablesPkg/Library/Acpi/RiscV/AcpiRhctLibRiscV/RhctGenerator.c`) and of
the RISC-V interrupt-controller device-tree parser
(`DynamicTablesPkg/Library/FdtHwInfoParserLib/RiscV/Intc/RiscVIntcParser.c`).

Machine integers are modelled as `Nat` with explicit `% 2^w` where the C code
truncates; EFI status codes become an inductive type; buffers become `List Nat`
of byte values; the C `STATIC` locals and the allocator become explicitly
threaded state.
-/

namespace Edk2Rhct

/-- EFI status codes used by the two translation units. -/
inductive EfiStatus where
  | success
  | invalidParameter
  | notFound
  | aborted
  | unsupported
  | outOfResources
  | badBufferSize
deriving DecidableEq, Repr

/-- Little-endian serialization of a 16-bit field (the low two bytes of `n`). -/
def le16 (n : Nat) : List Nat :=
  [n % 256, n / 256 % 256]

/-- Little-endian serialization of a 32-bit field. -/
def le32 (n : Nat) : List Nat :=
  [n % 256, n / 256 % 256, n / 65536 % 256, n / 16777216 % 256]

/-- Little-endian serialization of a 64-bit field. -/
def le64 (n : Nat) : List Nat :=
  le32 (n % 4294967296) ++ le32 (n / 4294967296)

/-- Decode a little-endian 16-bit field stored at offset `o` of buffer `b`. -/
def rd16 (b : List Nat) (o : Nat) : Nat :=
  b.getD o 0 + 256 * b.getD (o + 1) 0

/-- Decode a little-endian 32-bit field stored at offset `o` of buffer `b`. -/
def rd32 (b : List Nat) (o : Nat) : Nat :=
  rd16 b o + 65536 * rd16 b (o + 2)

/-- `ALIGN_VALUE (n, 2)` from `Base.h`: round `n` up to the next multiple of 2. -/
def alignValue2 (n : Nat) : Nat :=
  if n % 2 = 0 then n else n + 1

def MAX_UINT16 : Nat := 65535

def MAX_UINT32 : Nat := 4294967295

/-! ## Spec-modelled binary layout

The `EFI_ACPI_6_6_RHCT_*` structure definitions live in an `IndustryStandard`
header of this repository that is not among the provided sources.  The sizes
and layouts below are modelled from the spec's output binary format section:
every node begins with a 5-byte (2-byte type, 2-byte length, 1-byte revision)
header; the ISA node then has a 2-byte string-length field; the CMO node has
three 1-byte block-size fields; the Hart-Info node has a 2-byte offset-count
and a 4-byte hart-uid; the table itself is a generic 36-byte ACPI header
followed by 4-byte node-count, 4-byte first-node-offset, 8-byte frequency and
8-byte flags fields. -/

/-- Modelled from the spec: `sizeof (EFI_ACPI_6_6_RHCT_NODE_HEADER)`:
2-byte type + 2-byte length + 1-byte revision. -/
def nodeHeaderSize : Nat := 5

/-- Modelled from the spec: `sizeof (EFI_ACPI_6_6_RHCT_ISA_STRING_NODE)`:
node header + 2-byte string-length field. -/
def isaStringNodeFixedSize : Nat := nodeHeaderSize + 2

/-- Modelled from the spec: `sizeof (EFI_ACPI_6_6_RHCT_CMO_NODE)`:
node header + three 1-byte block-size fields. -/
def cmoNodeSize : Nat := nodeHeaderSize + 3

/-- Modelled from the spec: `sizeof (EFI_ACPI_6_6_RHCT_HART_INFO_NODE)`:
node header + 2-byte offset-count + 4-byte hart-uid. -/
def hartInfoNodeFixedSize : Nat := nodeHeaderSize + 2 + 4

/-- Modelled from the spec:
`sizeof (EFI_ACPI_6_6_RISCV_HART_CAPABILITIES_TABLE)`: 36-byte generic ACPI
header + 4-byte node-count + 4-byte first-node-offset + 8-byte frequency +
8-byte flags. -/
def rhctTableHeaderSize : Nat := 36 + 4 + 4 + 8 + 8

/-- Modelled from the spec: the ISA-string node type tag. -/
def rhctNodeTypeIsa : Nat := 0

/-- Modelled from the spec: the CMO node type tag. -/
def rhctNodeTypeCmo : Nat := 1

/-- Modelled from the spec: the Hart-Info node type tag. -/
def rhctNodeTypeHartInfo : Nat := 65535

/-- Modelled from the spec: node structure revision written by the writer. -/
def rhctNodeRevision : Nat := 1

/-! ## `GetIsaStringNodeSize` and `AddIsaStringNode`

An ISA string is modelled as the list of its (non-null) content bytes, so
`AsciiStrSize` is `length + 1`. -/

/-- `GetIsaStringNodeSize`: fixed node size plus the even-aligned size of the
null-terminated string; fails with `EFI_INVALID_PARAMETER` when the result
exceeds `MAX_UINT16`. -/
def getIsaStringNodeSize (isaString : List Nat) : Except EfiStatus Nat :=
  let size := isaStringNodeFixedSize + alignValue2 (isaString.length + 1)
  if size > MAX_UINT16 then
    .error .invalidParameter
  else
    .ok size

/-- `AddIsaStringNode`: serialize the ISA string node into its byte image.
The node is written into a zero-initialized buffer, so the alignment padding
byte (if any) is zero.  Note the source stores `AsciiStrSize (IsaString) + 1`
(that is `strlen + 2`) into the 16-bit string-length field. -/
def addIsaStringNode (isaString : List Nat) : Except EfiStatus (List Nat) :=
  match getIsaStringNodeSize isaString with
  | .error e => .error e
  | .ok nodeLength =>
      .ok (le16 rhctNodeTypeIsa ++ le16 (nodeLength % 65536) ++
           [rhctNodeRevision] ++ le16 ((isaString.length + 2) % 65536) ++
           isaString ++ [0] ++
           List.replicate (nodeLength - (isaStringNodeFixedSize + isaString.length + 1)) 0)

/-- The 16-bit length field of a serialized RHCT node (offset 2 of the node). -/
def nodeLengthField (node : List Nat) : Nat :=
  rd16 node 2

/-! ## Configuration-manager object types -/

/-- `CM_RISCV_CMO_NODE`: the three cache-operation block-size exponents. -/
structure CmoNode where
  cbomBlockSize : Nat
  cbopBlockSize : Nat
  cbozBlockSize : Nat
deriving DecidableEq, Repr

/-- `CM_RISCV_TIMER_INFO`. -/
structure TimerInfo where
  timeBaseFrequency : Nat
  timerCannotWakeCpu : Bool
deriving DecidableEq, Repr

/-- `CM_RISCV_RINTC_INFO`: the per-hart record produced by the topology
extraction and consumed by the table writer. -/
structure RintcInfo where
  flags : Nat
  hartId : Nat
  version : Nat
  acpiProcessorUid : Nat
  extIntcId : Nat
  imsicBaseAddress : Nat
  imsicSize : Nat
deriving DecidableEq, Repr

/-! ## Size planning (`GetSizeofCmoNodes`, `GetHartInfoSize`,
`GetSizeofHartInfoNodes`) -/

/-- `GetSizeofCmoNodes`: total byte size of the CMO node group, together with
the node-indexer offsets recorded for the individual nodes (each entry is the
running size plus the group start offset, truncated to 32 bits). -/
def getSizeofCmoNodes (nodeStartOffset : Nat) : List CmoNode → Nat × List Nat
  | [] => (0, [])
  | _ :: rest =>
      let (size, entries) := getSizeofCmoNodes (nodeStartOffset + cmoNodeSize) rest
      (size + cmoNodeSize, nodeStartOffset % 4294967296 :: entries)

/-- `GetHartInfoSize`: fixed Hart-Info node size plus one 32-bit slot per
offset. -/
def getHartInfoSize (numOffsets : Nat) : Nat :=
  hartInfoNodeFixedSize + 4 * numOffsets

/-- `GetSizeofHartInfoNodes`: total byte size of the Hart-Info node group,
together with the node-indexer offsets recorded for the individual nodes. -/
def getSizeofHartInfoNodes (nodeStartOffset : Nat) (numOffsets : Nat) :
    List RintcInfo → Nat × List Nat
  | [] => (0, [])
  | _ :: rest =>
      let (size, entries) :=
        getSizeofHartInfoNodes (nodeStartOffset + getHartInfoSize numOffsets) numOffsets rest
      (size + getHartInfoSize numOffsets, nodeStartOffset % 4294967296 :: entries)

/-! ## Table writing (`AddCmoNodes`, `AddHartInfoNodes`) -/

/-- One serialized CMO node: header plus the three block-size bytes. -/
def serializeCmoNode (n : CmoNode) : List Nat :=
  le16 rhctNodeTypeCmo ++ le16 (cmoNodeSize % 65536) ++ [rhctNodeRevision] ++
  [n.cbomBlockSize % 256, n.cbopBlockSize % 256, n.cbozBlockSize % 256]

/-- `AddCmoNodes`: serialize the CMO node group (the source loop cannot
fail). -/
def addCmoNodes (nodes : List CmoNode) : List Nat :=
  (nodes.map serializeCmoNode).flatten

/-- One serialized Hart-Info node.  `offsets` is the shared offsets array; the
source copies `4 * numOffsets` bytes from it, and its callers always pass an
array of exactly `numOffsets` entries. -/
def serializeHartInfoNode (numOffsets : Nat) (offsets : List Nat) (uid : Nat) :
    List Nat :=
  le16 rhctNodeTypeHartInfo ++ le16 (getHartInfoSize numOffsets % 65536) ++
  [rhctNodeRevision] ++ le16 (numOffsets % 65536) ++ le32 (uid % 4294967296) ++
  (offsets.map fun o => le32 (o % 4294967296)).flatten

/-- `AddHartInfoNodes`: serialize one Hart-Info node per RINTC record, all
carrying the same `offsets` array; fails with `EFI_INVALID_PARAMETER` when the
per-node length exceeds `MAX_UINT16` (checked once per iteration). -/
def addHartInfoNodes (numOffsets : Nat) (offsets : List Nat) :
    List RintcInfo → Except EfiStatus (List Nat)
  | [] => .ok []
  | r :: rest =>
      if getHartInfoSize numOffsets > MAX_UINT16 then
        .error .invalidParameter
      else
        match addHartInfoNodes numOffsets offsets rest with
        | .error e => .error e
        | .ok bs =>
            .ok (serializeHartInfoNode numOffsets offsets r.acpiProcessorUid ++ bs)

/-- The `Offsets` scratch array built in `BuildRhctTable`: a zero pool of
`numOffsets` 32-bit entries whose first slots receive the ISA-string group
offset (when present) and then the CMO group offset (when present). -/
def mkOffsets (numOffsets : Nat) (isaCount isaOffset cmoCount cmoOffset : Nat) :
    List Nat :=
  let written := (if isaCount > 0 then [isaOffset] else []) ++
                 (if cmoCount > 0 then [cmoOffset] else [])
  written ++ List.replicate (numOffsets - written.length) 0

/-! ## `BuildRhctTable` -/

/-- The allocations `BuildRhctTable` can make. -/
inductive AllocTag where
  | nodeIndexer
  | table
  | offsets
deriving DecidableEq, Repr

/-- Result of one `BuildRhctTable` call: the returned status, the caller's
`*Table` pointer at return (the serialized table bytes when non-null), and the
allocations still live at return. -/
structure BuildResult where
  status : EfiStatus
  table : Option (List Nat)
  liveAllocs : List AllocTag
deriving DecidableEq, Repr

/-- Inputs of one `BuildRhctTable` call: whether the requested table revision
is in the supported range, and the outcome of the four configuration-manager
object queries. -/
structure BuildInputs where
  revisionSupported : Bool
  timerRes : Except EfiStatus TimerInfo
  isaRes : Except EfiStatus (List (List Nat))
  cmoRes : Except EfiStatus (List CmoNode)
  rintcRes : Except EfiStatus (List RintcInfo)

/-- Modelled from the spec: the external generic table-header writer
(`AddAcpiHeader`) fills the 36-byte ACPI header; its content is opaque to this
generator, and the buffer is zero-initialized. -/
def acpiHeaderBytes : List Nat :=
  List.replicate 36 0

/-- `BuildRhctTable`, with the allocator made explicit (allocations succeed;
the error label frees the node indexer and the output buffer — and only
those — and resets `*Table` to null). -/
def buildRhctTable (inp : BuildInputs) : BuildResult :=
  if ¬ inp.revisionSupported then
    { status := .invalidParameter, table := none, liveAllocs := [] }
  else
    -- *Table = NULL
    match inp.timerRes with
    | .error e => { status := e, table := none, liveAllocs := [] }
    | .ok timerInfo =>
    match inp.isaRes with
    | .error e => { status := e, table := none, liveAllocs := [] }
    | .ok isaStrings =>
    match (match inp.cmoRes with
           | .error .notFound => Except.ok ([] : List CmoNode)
           | other => other) with
    | .error e => { status := e, table := none, liveAllocs := [] }
    | .ok cmoNodes =>
    match inp.rintcRes with
    | .error e => { status := e, table := none, liveAllocs := [] }
    | .ok rintcInfos =>
    let isaStringNodeCount := isaStrings.length
    let cmoNodeCount := cmoNodes.length
    let hartInfoNodeCount := rintcInfos.length
    let rhctNodeCount := isaStringNodeCount + cmoNodeCount + hartInfoNodeCount
    -- NodeIndexer = AllocateZeroPool (...), assumed to succeed
    let tableSize0 := rhctTableHeaderSize
    let isaOffset := tableSize0
    match (if isaStringNodeCount > 0 then
             (getIsaStringNodeSize (isaStrings.headD [])).map some
           else .ok none) with
    | .error e =>
        -- error label: NodeIndexer freed, *Table already null
        { status := e, table := none, liveAllocs := [] }
    | .ok isaSize? =>
    let tableSize1 := match isaSize? with
                      | some s => (tableSize0 + s) % 4294967296
                      | none => tableSize0
    let cmoOffset := tableSize1
    let cmoGroupSize := (getSizeofCmoNodes cmoOffset cmoNodes).1
    -- NodeSize is a UINT32; the source's `NodeSize > MAX_UINT32` guard can
    -- never fire.
    let cmoNodeSize32 := cmoGroupSize % 4294967296
    if cmoNodeCount > 0 ∧ cmoNodeSize32 > MAX_UINT32 then
      { status := .invalidParameter, table := none, liveAllocs := [] }
    else
    let tableSize2 := if cmoNodeCount > 0 then (tableSize1 + cmoNodeSize32) % 4294967296
                      else tableSize1
    let hartInfoOffset := tableSize2
    let numOffsets := rhctNodeCount - hartInfoNodeCount
    let hartGroupSize := (getSizeofHartInfoNodes hartInfoOffset numOffsets rintcInfos).1
    let hartNodeSize32 := hartGroupSize % 4294967296
    if hartInfoNodeCount > 0 ∧ hartNodeSize32 > MAX_UINT32 then
      { status := .invalidParameter, table := none, liveAllocs := [] }
    else
    let tableSize := if hartInfoNodeCount > 0 then (tableSize2 + hartNodeSize32) % 4294967296
                     else tableSize2
    if tableSize > MAX_UINT32 then
      { status := .invalidParameter, table := none, liveAllocs := [] }
    else
    -- *Table = AllocateZeroPool (TableSize), assumed to succeed;
    -- AddAcpiHeader, assumed to succeed.
    let headerBytes := acpiHeaderBytes ++ le32 (rhctNodeCount % 4294967296) ++
                       le32 rhctTableHeaderSize ++
                       le64 (timerInfo.timeBaseFrequency % 18446744073709551616) ++
                       le64 (if timerInfo.timerCannotWakeCpu then 1 else 0)
    match (if isaStringNodeCount > 0 then
             (addIsaStringNode (isaStrings.headD [])).map some
           else .ok none) with
    | .error e =>
        -- error label: NodeIndexer and *Table freed, *Table reset to null
        { status := e, table := none, liveAllocs := [] }
    | .ok isaNodeBytes? =>
    let isaBytes := isaNodeBytes?.getD []
    let cmoBytes := if cmoNodeCount > 0 then addCmoNodes cmoNodes else []
    -- Offsets = AllocateZeroPool (sizeof (UINT32) * numOffsets)
    let offsets := mkOffsets numOffsets isaStringNodeCount isaOffset cmoNodeCount cmoOffset
    match (if hartInfoNodeCount > 0 then
             (addHartInfoNodes numOffsets offsets rintcInfos).map some
           else .ok none) with
    | .error e =>
        -- error label: NodeIndexer and *Table freed; Offsets is NOT freed
        { status := e, table := none, liveAllocs := [.offsets] }
    | .ok hartBytes? =>
    let hartBytes := hartBytes?.getD []
    { status := .success,
      table := some (headerBytes ++ isaBytes ++ cmoBytes ++ hartBytes),
      liveAllocs := [.nodeIndexer, .table, .offsets] }

/-! ## `FreeRhctTableResources` -/

/-- `FreeRhctTableResources`: frees the generator's node indexer (when
non-null) and the table buffer; returns `EFI_INVALID_PARAMETER` when the
table pointer is already null.  State is `(NodeIndexer non-null, *Table)`;
the result carries the status and the state after the call. -/
def freeRhctTableResources (_nodeIndexer : Bool) (tablePtr : Option Unit) :
    EfiStatus × Bool × Option Unit :=
  -- if (Generator->NodeIndexer != NULL) { FreePool; NodeIndexer = NULL; }
  match tablePtr with
  | none => (.invalidParameter, false, none)
  | some _ => (.success, false, none)

/-! ## RISC-V interrupt-controller parser (`RiscVIntcParser.c`) -/

/-- Big-endian (`Fdt32ToCpu`) decode of the first four bytes of a property. -/
def fdt32 (bytes : List Nat) : Nat :=
  bytes.getD 0 0 * 16777216 + bytes.getD 1 0 * 65536 +
  bytes.getD 2 0 * 256 + bytes.getD 3 0

/-- Big-endian (`Fdt64ToCpu`) decode of the first eight bytes of a property. -/
def fdt64 (bytes : List Nat) : Nat :=
  fdt32 bytes * 4294967296 + fdt32 (bytes.drop 4)

/-- Modelled from the spec: `EFI_ACPI_6_6_RINTC_FLAG_ENABLE`, defined in an
`IndustryStandard` header not among the provided sources (the enable flag
bit). -/
def RINTC_FLAG_ENABLE : Nat := 1

/-- Modelled from the spec: `IRQ_S_EXT`, the supervisor-external interrupt
sentinel, defined in a header not among the provided sources. -/
def IRQ_S_EXT : Nat := 9

/-- A `cpu` device-tree node as consumed by `CpuNodeParser`: its raw `reg`
property (if present), whether a nested `interrupt-controller` sub-node
exists, and whether its `compatible` property matches `riscv`. -/
structure CpuNodeIn where
  regBytes : Option (List Nat)
  hasIntcSubnode : Bool
  compatibleRiscv : Bool
deriving DecidableEq, Repr

/-- `CpuNodeParser`.  The first component is the `(status, produced record)`
pair, the second is the function-`STATIC` `ProcUid` counter after the call
(a process-wide `UINT32` that the source never re-initializes).

When the nested `interrupt-controller` sub-node is absent the source sets
`Status = EFI_ABORTED` (after `ASSERT (0)`) but never returns it: control
falls through, the record is populated and the function returns
`EFI_SUCCESS`. -/
def cpuNodeParser (procUid : Nat) (addressCells : Nat) (cpu : CpuNodeIn) :
    (EfiStatus × Option RintcInfo) × Nat :=
  match cpu.regBytes with
  | none => ((.aborted, none), procUid)
  | some data =>
      if data.length ≠ 4 ∧ data.length ≠ 8 then
        ((.aborted, none), procUid)
      else
        -- FdtGetNextNamedNodeInBranch (.., "interrupt-controller", ..):
        -- on EFI_NOT_FOUND the status is turned into EFI_ABORTED, but the
        -- source discards it and keeps going.
        let _intcStatus : EfiStatus :=
          if cpu.hasIntcSubnode then .success else .aborted
        let hartId := if addressCells = 2 then fdt64 data else fdt32 data
        ((.success,
          some { flags := RINTC_FLAG_ENABLE, hartId := hartId, version := 1,
                 acpiProcessorUid := procUid % 4294967296, extIntcId := 0,
                 imsicBaseAddress := 0, imsicSize := 0 }),
         (procUid + 1) % 4294967296)

/-- The per-`cpu` loop of `CpusNodeParser`, threading the `ProcUid` static. -/
def cpusLoop (procUid : Nat) (addressCells : Nat) :
    List CpuNodeIn → Except EfiStatus (List RintcInfo) × Nat
  | [] => (.ok [], procUid)
  | cpu :: rest =>
      if ¬ cpu.compatibleRiscv then
        (.error .unsupported, procUid)
      else
        match cpuNodeParser procUid addressCells cpu with
        | ((.success, some r), uid1) =>
            match cpusLoop uid1 addressCells rest with
            | (.ok rs, uid2) => (.ok (r :: rs), uid2)
            | (.error e, uid2) => (.error e, uid2)
        | ((st, _), uid1) => (.error st, uid1)

/-- `CpusNodeParser`: validates the address-cell width and the `cpu` node
count, then parses each `cpu` node in traversal order.  The second component
is the `ProcUid` static after the call. -/
def cpusNodeParser (procUid : Nat) (addressCells : Int) (cpus : List CpuNodeIn) :
    Except EfiStatus (List RintcInfo) × Nat :=
  if addressCells < 0 then
    (.error .aborted, procUid)
  else if cpus.length = 0 then
    (.error .notFound, procUid)
  else
    cpusLoop procUid addressCells.toNat cpus

/-- One whole extraction-and-synthesis pipeline invocation over a tree whose
only topology content is the hart list (no interrupt controllers, so the
IMSIC resolver reports `EFI_NOT_FOUND` — tolerated — and the PLIC/APLIC scan
finds nothing).  Takes and returns the `ProcUid` static. -/
def rhctPipeline (procUid : Nat) (addressCells : Int) (cpus : List CpuNodeIn)
    (timer : TimerInfo) (isaStrings : List (List Nat)) (cmo : List CmoNode) :
    BuildResult × Nat :=
  match cpusNodeParser procUid addressCells cpus with
  | (.error e, uid1) => ({ status := e, table := none, liveAllocs := [] }, uid1)
  | (.ok rs, uid1) =>
      (buildRhctTable
        { revisionSupported := true, timerRes := .ok timer,
          isaRes := .ok isaStrings, cmoRes := .ok cmo, rintcRes := .ok rs },
       uid1)

/-! ## External-interrupt-controller list
(`FdtCreateExtIntcList`, `FdtConvertToGsi`) -/

/-- `RISCV_EXT_INTC_DATA`: one registered controller with its GSI base. -/
structure ExtIntcData where
  extIntcNode : Nat
  gsiBase : Nat
deriving DecidableEq, Repr

/-- `FdtCreateExtIntcList`: the source calls
`InitializeListHead (&ExtIntcList)` on every insertion, which re-initializes
the list head and drops all previously inserted entries before appending the
new one — so the list after the call holds exactly the new entry. -/
def fdtCreateExtIntcList (_lst : List ExtIntcData) (node gsiBase : Nat) :
    List ExtIntcData :=
  [{ extIntcNode := node, gsiBase := gsiBase }]

/-- `FdtConvertToGsi`: walk the list; for a registered controller return
`GsiBase + Irq` (32-bit), otherwise return `Irq` unchanged. -/
def fdtConvertToGsi (lst : List ExtIntcData) (extIntcNode : Nat) (irq : Nat) :
    Nat :=
  match lst.find? (fun d => d.extIntcNode = extIntcNode) with
  | some d => (d.gsiBase + irq) % 4294967296
  | none => irq

/-! ## IMSIC hart-index-bits default (`ImsicRintcInfoParser`) -/

/-- The default-value loop of `ImsicRintcInfoParser`, with an explicit fuel
argument for structural recursion (the loop halves its operand, so `fuel = n`
always suffices). -/
def hartIndexBitsGo : Nat → Nat → Nat
  | _, 0 => 0
  | 0, _ + 1 => 0
  | fuel + 1, n + 1 => hartIndexBitsGo fuel ((n + 1) / 2) + 1

/-- The default-value loop of `ImsicRintcInfoParser`:
`while (Len > 0) { HartIndexBits++; Len >>= 1; }` — the number of halvings
until zero, i.e. the bit length of `n`. -/
def hartIndexBitsLoop (n : Nat) : Nat :=
  hartIndexBitsGo n n

/-- `HartIndexBits` resolution in `ImsicRintcInfoParser`: the property value
when present (and non-zero), else the default computed by the loop from
`NumPhandle`, the number of (reference, interrupt-number) pairs of the
node's `interrupts-extended` property. -/
def imsicHartIndexBits (hartIndexBitsProp : Option Nat) (numPhandle : Nat) :
    Nat :=
  let h := match hartIndexBitsProp with
           | none => 0
           | some v => v % 4294967296
  if h = 0 then hartIndexBitsLoop numPhandle else h

/-! ## Device-tree model for the PLIC/APLIC scan -/

/-- A device-tree property as returned by `FdtGetProp`: the byte length the
query reports and the property's 32-bit big-endian cells. -/
structure DtProp where
  bytes : Nat
  cells : List Nat
deriving DecidableEq, Repr

/-- One device-tree node: its offset (identifier), the values of its
`compatible` property and its other properties. -/
structure DtNode where
  offset : Nat
  compatible : List String
  props : List (String × DtProp)
deriving DecidableEq, Repr

/-- `FdtGetProp` on a node of the model. -/
def DtNode.getProp (n : DtNode) (name : String) : Option DtProp :=
  (n.props.find? (fun p => p.1 = name)).map (fun p => p.2)

/-- The device tree as queried by the parser: the nodes in `FdtNextNode`
traversal order, `FdtNodeOffsetByPhandle`, `FdtParentOffset` and
`FdtAddressCells` (negative on error, hence `Int`). -/
structure DeviceTree where
  nodes : List DtNode
  phandleToNode : Nat → Option Nat
  parentOf : Nat → Option Nat
  addressCellsOf : Nat → Int

/-- Look a node up by its offset. -/
def DeviceTree.nodeAt (dt : DeviceTree) (off : Nat) : Option DtNode :=
  dt.nodes.find? (fun n => n.offset = off)

/-- `Fdt32ToCpu (*Prop)`: the first cell. -/
def prop32 (p : DtProp) : Nat :=
  p.cells.getD 0 0

/-- `Fdt64ToCpu (*(UINT64 *) Prop)`: the first two cells, big-endian. -/
def prop64 (p : DtProp) : Nat :=
  p.cells.getD 0 0 * 4294967296 + p.cells.getD 1 0

/-- The cells the source actually iterates over: `Len / 4` of them, where
`Len` is the byte length `FdtGetProp` reported. -/
def propCells (p : DtProp) : List Nat :=
  p.cells.take (p.bytes / 4)

/-- Group a cell list into (reference, interrupt-number) pairs, the way the
`Idx += 2` loops read it (an odd trailing cell is paired with the value the
out-of-bounds read would return, modelled as 0). -/
def cellPairs : List Nat → List (Nat × Nat)
  | a :: b :: rest => (a, b) :: cellPairs rest
  | [a] => [(a, 0)]
  | [] => []

/-- `ACPI_BUILD_EXT_INTC_ID (PlicAplicId, CtxIdcId)`:
`(PlicAplicId << 24) | CtxIdcId`, a 32-bit value. -/
def buildExtIntcId (id ctx : Nat) : Nat :=
  Nat.lor (id * 16777216) ctx % 4294967296

/-- `IsPlicNode`: the node carries the `riscv,plic0` compatible string. -/
def isPlicNode (n : DtNode) : Bool :=
  n.compatible.contains "riscv,plic0"

/-- The `msi-parent` delegation arm of `IsAplicNode`: follow the reference to
the message-signaled node and apply the supervisor-external test to that
node's own routing property. -/
def isAplicMsiDelegate (dt : DeviceTree) (n : DtNode) : Bool :=
  match n.getProp "msi-parent" with
  | none => false
  | some p =>
      if p.bytes ≥ 4 then
        match dt.phandleToNode (prop32 p) with
        | none => false
        | some imsicOff =>
            match dt.nodeAt imsicOff with
            | none => false
            | some imsic =>
                match imsic.getProp "interrupts-extended" with
                | none => false
                | some q => q.bytes ≥ 4 && q.cells.getD 1 0 = IRQ_S_EXT
      else false

/-- `IsAplicNode`: an APLIC-compatible node qualifies (is supervisor-mode)
when its own `interrupts-extended` first interrupt number is the
supervisor-external sentinel, or when it delegates through `msi-parent` to a
node whose routing property passes the same test. -/
def isAplicNode (dt : DeviceTree) (n : DtNode) : Bool :=
  if ¬ n.compatible.contains "riscv,aplic" then
    false
  else
    match n.getProp "interrupts-extended" with
    | some p =>
        if p.bytes ≥ 4 && p.cells.getD 1 0 = IRQ_S_EXT then true
        else isAplicMsiDelegate dt n
    | none => isAplicMsiDelegate dt n

/-- Replace the `ExtIntcId` of the first record whose `HartId` matches
(`RiscVFindRintc` returns the first match). -/
def updateFirstRintc : List RintcInfo → Nat → Nat → List RintcInfo
  | [], _, _ => []
  | r :: rest, hartId, ext =>
      if r.hartId = hartId then
        { r with extIntcId := ext } :: rest
      else
        r :: updateFirstRintc rest hartId ext

/-- The hart identifier of a `cpu` node, read the way `RiscVUpdateRintc`
reads it (parent `cpus` node's address-cell width, then the `reg`
property); `none` models every failing arm (whose status the callers
discard). -/
def cpuNodeHartId (dt : DeviceTree) (cpuNode : Option Nat) : Option Nat :=
  match cpuNode with
  | none => none
  | some cpu =>
      match dt.parentOf cpu with
      | none => none
      | some cpus =>
          if dt.addressCellsOf cpus < 0 then none
          else
            match (dt.nodeAt cpu).bind (fun n => n.getProp "reg") with
            | none => none
            | some reg =>
                if reg.bytes ≠ 4 ∧ reg.bytes ≠ 8 then none
                else
                  some (if dt.addressCellsOf cpus = 2 then prop64 reg
                        else prop32 reg)

/-- `FdtNodeOffsetByPhandle` followed by `FdtParentOffset`: the `cpu` node
owning the referenced interrupt-controller node. -/
def phandleToCpuNode (dt : DeviceTree) (phandle : Nat) : Option Nat :=
  (dt.phandleToNode phandle).bind dt.parentOf

/-- `RiscVUpdateRintc`: locate the hart record for the `cpu` node and write
the composite external-controller id into it; all failure statuses are
discarded by the callers, leaving the records untouched. -/
def riscvUpdateRintc (dt : DeviceTree) (rintcs : List RintcInfo)
    (cpuNode : Option Nat) (extIntcId : Nat) : List RintcInfo :=
  match cpuNodeHartId dt cpuNode with
  | none => rintcs
  | some hartId => updateFirstRintc rintcs hartId extIntcId

/-- The PLIC back-annotation loop: only pairs whose interrupt number is the
supervisor-external sentinel count; the context index is
`2 * (pairIndex / 2) + 1`. -/
def plicAnnotate (dt : DeviceTree) (id : Nat) (pairs : List (Nat × Nat))
    (rintcs : List RintcInfo) : List RintcInfo :=
  pairs.enum.foldl
    (fun rs ip =>
      if ip.2.2 = IRQ_S_EXT then
        riscvUpdateRintc dt rs (phandleToCpuNode dt ip.2.1)
          (buildExtIntcId id (2 * (ip.1 / 2) + 1))
      else rs)
    rintcs

/-- The APLIC back-annotation loop: every pair counts, the context index is
the pair index. -/
def aplicAnnotate (dt : DeviceTree) (id : Nat) (pairs : List (Nat × Nat))
    (rintcs : List RintcInfo) : List RintcInfo :=
  pairs.enum.foldl
    (fun rs ip =>
      riscvUpdateRintc dt rs (phandleToCpuNode dt ip.2.1)
        (buildExtIntcId id ip.1))
    rintcs

/-- `PLIC_APLIC_COMMON_INFO`. -/
structure PlicAplicCommonInfo where
  version : Nat
  id : Nat
  numSources : Nat
  baseAddress : Nat
  size : Nat
  gsiBase : Nat
  hwId : List Nat
deriving DecidableEq, Repr

/-- The controller records the scan emits to the configuration manager. -/
inductive CtrlRecord where
  | plic (info : PlicAplicCommonInfo) : CtrlRecord
  | aplic (info : PlicAplicCommonInfo) (numIdcs : Nat) : CtrlRecord
deriving DecidableEq, Repr

/-- The 8-byte hardware-id tag written for PLIC records: `RSCV0001`. -/
def hwIdPlic : List Nat := [82, 83, 67, 86, 48, 48, 48, 49]

/-- The 8-byte hardware-id tag written for APLIC records: `RSCV0002`. -/
def hwIdAplic : List Nat := [82, 83, 67, 86, 48, 48, 48, 50]

/-- The APLIC arm of the scan body: read the routing property, derive the
context count and back-annotate every routed hart. -/
def aplicBranch (dt : DeviceTree) (id : Nat) (n : DtNode)
    (rintcs : List RintcInfo) : Nat × List RintcInfo :=
  match n.getProp "interrupts-extended" with
  | none => (0, rintcs)
  | some p =>
      if (p.bytes / 4) % 2 = 0 then
        let pairs := cellPairs (propCells p)
        (pairs.length, aplicAnnotate dt id pairs rintcs)
      else (0, rintcs)

/-- State threaded through the `PlicAplicInfoParser` node loop: the
call-scoped GSI counter and sequence id, the (re-initialized-per-insertion)
external-controller list, the hart records being back-annotated, and the
controller records emitted so far. -/
structure PlicAplicScanState where
  gsiBase : Nat
  id : Nat
  extIntcList : List ExtIntcData
  rintcs : List RintcInfo
  records : List CtrlRecord
deriving DecidableEq, Repr

/-- One iteration of the `PlicAplicInfoParser` node loop. -/
def plicAplicStep (dt : DeviceTree) (st : PlicAplicScanState) (n : DtNode) :
    Except EfiStatus PlicAplicScanState :=
  if ¬ (isPlicNode n || isAplicNode dt n) then
    .ok st
  else
    let extIntcList := fdtCreateExtIntcList st.extIntcList n.offset st.gsiBase
    match (match n.getProp "riscv,num-sources" with
           | some p => some p
           | none => n.getProp "riscv,ndev") with
    | none => .error .invalidParameter
    | some numSrcProp =>
    let numSources := prop32 numSrcProp
    match n.getProp "reg" with
    | none => .error .invalidParameter
    | some regProp =>
    if regProp.bytes % 4 > 0 then
      .error .invalidParameter
    else
    let common : PlicAplicCommonInfo :=
      { version := 1, id := st.id, numSources := numSources,
        baseAddress := prop64 regProp,
        size := prop64 { bytes := regProp.bytes, cells := regProp.cells.drop 2 },
        gsiBase := st.gsiBase, hwId := [] }
    let gsiBase1 := (st.gsiBase + numSources) % 4294967296
    if isPlicNode n then
      match n.getProp "interrupts-extended" with
      | none => .error .invalidParameter
      | some p =>
          if p.bytes < 4 then .error .invalidParameter
          else
            let pairs := cellPairs (propCells p)
            let rintcs1 := plicAnnotate dt st.id pairs st.rintcs
            .ok { gsiBase := gsiBase1, id := st.id + 1,
                  extIntcList := extIntcList, rintcs := rintcs1,
                  records := st.records ++ [.plic { common with hwId := hwIdPlic }] }
    else if n.compatible.contains "riscv,aplic" then
      let (numIdcs, rintcs1) := aplicBranch dt st.id n st.rintcs
      .ok { gsiBase := gsiBase1, id := st.id + 1,
            extIntcList := extIntcList, rintcs := rintcs1,
            records := st.records ++ [.aplic { common with hwId := hwIdAplic } numIdcs] }
    else
      .ok { gsiBase := gsiBase1, id := st.id + 1,
            extIntcList := extIntcList, rintcs := st.rintcs,
            records := st.records }

/-- `PlicAplicInfoParser`: scan every node of the tree in traversal order;
nodes that are neither a PLIC nor a qualifying (supervisor-mode) APLIC are
passed over without effect; the scan ends with `EFI_SUCCESS` when the node
supply is exhausted. -/
def plicAplicInfoParser (dt : DeviceTree) (rintcs : List RintcInfo) :
    Except EfiStatus (List CtrlRecord × List RintcInfo) :=
  (dt.nodes.foldlM (plicAplicStep dt)
      { gsiBase := 0, id := 0, extIntcList := [], rintcs := rintcs,
        records := [] }).map
    (fun st => (st.records, st.rintcs))

/-- The registrations performed during one controller scan: each processed
controller node calls `FdtCreateExtIntcList` with its node offset and the
current GSI base. -/
def scanExtIntcList (regs : List (Nat × Nat)) : List ExtIntcData :=
  regs.foldl (fun l p => fdtCreateExtIntcList l p.1 p.2) []

/-! ## Theorems -/

theorem scanExtIntcList_append_last (regs : List (Nat × Nat))
    (node gsiBase : Nat) :
    scanExtIntcList (regs ++ [(node, gsiBase)]) =
      [{ extIntcNode := node, gsiBase := gsiBase }] := by
  have key : ∀ (l : List (Nat × Nat)) (init : List ExtIntcData),
      (l ++ [(node, gsiBase)]).foldl (fun a p => fdtCreateExtIntcList a p.1 p.2)
        init = [{ extIntcNode := node, gsiBase := gsiBase }] := by
    intro l
    induction l with
    | nil => intro init; rfl
    | cons r rs ih => intro init; simpa using ih (fdtCreateExtIntcList init r.1 r.2)
  exact key regs []

/-- C10: `FdtCreateExtIntcList` re-initializes the list head on every
insertion, so after any non-empty registration sequence the list holds
exactly the last registered controller; `FdtConvertToGsi` adds the GSI base
only for that controller's node and returns the IRQ unchanged for every
other node. -/
theorem extIntcList_holds_only_last_registration (regs : List (Nat × Nat))
    (node gsiBase : Nat) :
    scanExtIntcList (regs ++ [(node, gsiBase)]) =
      [{ extIntcNode := node, gsiBase := gsiBase }] ∧
    (∀ irq, fdtConvertToGsi (scanExtIntcList (regs ++ [(node, gsiBase)]))
        node irq = (gsiBase + irq) % 4294967296) ∧
    (∀ other irq, other ≠ node →
      fdtConvertToGsi (scanExtIntcList (regs ++ [(node, gsiBase)]))
        other irq = irq) := by
  refine ⟨scanExtIntcList_append_last regs node gsiBase, ?_, ?_⟩
  · intro irq
    rw [scanExtIntcList_append_last regs node gsiBase]
    simp [fdtConvertToGsi, List.find?]
  · intro other irq hne
    rw [scanExtIntcList_append_last regs node gsiBase]
    simp [fdtConvertToGsi, List.find?, Ne.symm hne]

theorem extIntcList_holds_only_last_registration_witness :
    (5 : Nat) ≠ 7 ∧
    fdtConvertToGsi (scanExtIntcList ([(5, 0)] ++ [(7, 32)])) 5 3 = 3 :=
  ⟨by decide,
   (extIntcList_holds_only_last_registration [(5, 0)] 7 32).2.2 5 3 (by decide)⟩

/-- C5 (code bug): a `cpu` node with a valid 4-byte `reg` property but no
nested `interrupt-controller` sub-node: `CpuNodeParser` computes
`EFI_ABORTED` but never returns it — it falls through, produces a fully
populated hart record, bumps the Uid counter and reports `EFI_SUCCESS`; the
surrounding `CpusNodeParser` therefore also succeeds and emits the record. -/
theorem cpuNodeParser_missing_intc_still_succeeds :
    cpuNodeParser 0 1
        { regBytes := some [0, 0, 0, 0], hasIntcSubnode := false,
          compatibleRiscv := true } =
      ((.success,
        some { flags := RINTC_FLAG_ENABLE, hartId := 0, version := 1,
               acpiProcessorUid := 0, extIntcId := 0, imsicBaseAddress := 0,
               imsicSize := 0 }), 1) ∧
    cpusNodeParser 0 1
        [{ regBytes := some [0, 0, 0, 0], hasIntcSubnode := false,
           compatibleRiscv := true }] =
      (.ok [{ flags := RINTC_FLAG_ENABLE, hartId := 0, version := 1,
              acpiProcessorUid := 0, extIntcId := 0, imsicBaseAddress := 0,
              imsicSize := 0 }], 1) := by
  constructor <;> rfl

/-- C6 counterexample: for the ISA string `rv64i` the serialized node's
length field is `7 + align2 (strlen + 1) = 13`, not
`5 + align2 (strlen + 1) = 11` as the claim states. -/
theorem isaStringNode_length_counterexample :
    ∃ b, addIsaStringNode [114, 118, 54, 52, 105] = .ok b ∧
      nodeLengthField b ≠
        5 + alignValue2 ([114, 118, 54, 52, 105].length + 1) :=
  ⟨_, rfl, by decide⟩

/-- C6 (amended): for every ISA string whose node fits the 16-bit length
field, the serialized node's length field equals
`7 + align2 (strlen + 1)` — the 5-byte node header plus the 2-byte
string-length field plus the even-aligned null-terminated string — and the
stored bytes equal the string including its trailing null terminator. -/
theorem addIsaStringNode_length_and_payload (s : List Nat)
    (h : isaStringNodeFixedSize + alignValue2 (s.length + 1) ≤ MAX_UINT16) :
    ∃ b, addIsaStringNode s = .ok b ∧
      nodeLengthField b = isaStringNodeFixedSize + alignValue2 (s.length + 1) ∧
      (b.drop isaStringNodeFixedSize).take (s.length + 1) = s ++ [0] := by
  have hnot : ¬ (isaStringNodeFixedSize + alignValue2 (s.length + 1) > MAX_UINT16) := by
    omega
  have hsize : getIsaStringNodeSize s =
      .ok (isaStringNodeFixedSize + alignValue2 (s.length + 1)) := by
    simp only [getIsaStringNodeSize]
    rw [if_neg hnot]
  refine ⟨le16 rhctNodeTypeIsa ++
      le16 ((isaStringNodeFixedSize + alignValue2 (s.length + 1)) % 65536) ++
      [rhctNodeRevision] ++ le16 ((s.length + 2) % 65536) ++ s ++ [0] ++
      List.replicate
        (isaStringNodeFixedSize + alignValue2 (s.length + 1) -
          (isaStringNodeFixedSize + s.length + 1)) 0, ?_, ?_, ?_⟩
  · simp only [addIsaStringNode, hsize]
  · have hlt : isaStringNodeFixedSize + alignValue2 (s.length + 1) < 65536 := by
      simp only [MAX_UINT16] at h
      omega
    show ((isaStringNodeFixedSize + alignValue2 (s.length + 1)) % 65536) % 256 +
        256 * (((isaStringNodeFixedSize + alignValue2 (s.length + 1)) % 65536) /
          256 % 256) =
        isaStringNodeFixedSize + alignValue2 (s.length + 1)
    rw [Nat.mod_eq_of_lt hlt]
    omega
  · show List.take (s.length + 1)
        ((s ++ [0]) ++
          List.replicate
            (isaStringNodeFixedSize + alignValue2 (s.length + 1) -
              (isaStringNodeFixedSize + s.length + 1)) 0) = s ++ [0]
    rw [show s.length + 1 = (s ++ [0]).length by simp]
    exact List.take_left (s ++ [0]) _

theorem addIsaStringNode_length_and_payload_witness :
    isaStringNodeFixedSize + alignValue2 ([114, 118, 54, 52, 105].length + 1) ≤
      MAX_UINT16 ∧
    ∃ b, addIsaStringNode [114, 118, 54, 52, 105] = .ok b ∧
      nodeLengthField b =
        isaStringNodeFixedSize +
          alignValue2 ([114, 118, 54, 52, 105].length + 1) ∧
      (b.drop isaStringNodeFixedSize).take
          ([114, 118, 54, 52, 105].length + 1) =
        [114, 118, 54, 52, 105] ++ [0] :=
  ⟨by decide, addIsaStringNode_length_and_payload [114, 118, 54, 52, 105]
    (by decide)⟩

/-- C7 counterexample: after a successful release, calling
`FreeRhctTableResources` again for the same table is not an error-free
no-op — the second call reports `EFI_INVALID_PARAMETER`. -/
theorem freeRhctTableResources_second_call_errs :
    (freeRhctTableResources true (some ())).1 = .success ∧
    freeRhctTableResources (freeRhctTableResources true (some ())).2.1
        (freeRhctTableResources true (some ())).2.2 =
      (.invalidParameter, false, none) ∧
    ¬ ((freeRhctTableResources (freeRhctTableResources true (some ())).2.1
        (freeRhctTableResources true (some ())).2.2).1 = .success) := by
  refine ⟨rfl, rfl, ?_⟩
  intro hc
  exact EfiStatus.noConfusion hc

/-- C7 (amended): a second `FreeRhctTableResources` call for an
already-released table is memory-safe — it releases nothing and leaves the
state unchanged — but it reports `EFI_INVALID_PARAMETER` rather than
success. -/
theorem freeRhctTableResources_double_release (ni : Bool) (t : Option Unit)
    (h : (freeRhctTableResources ni t).1 = .success) :
    freeRhctTableResources (freeRhctTableResources ni t).2.1
        (freeRhctTableResources ni t).2.2 =
      (.invalidParameter, (freeRhctTableResources ni t).2.1,
       (freeRhctTableResources ni t).2.2) := by
  match t with
  | none => exact absurd h (by simp [freeRhctTableResources])
  | some _ => rfl

theorem freeRhctTableResources_double_release_witness :
    (freeRhctTableResources true (some ())).1 = EfiStatus.success ∧
    freeRhctTableResources (freeRhctTableResources true (some ())).2.1
        (freeRhctTableResources true (some ())).2.2 =
      (.invalidParameter, (freeRhctTableResources true (some ())).2.1,
       (freeRhctTableResources true (some ())).2.2) :=
  ⟨rfl, freeRhctTableResources_double_release true (some ()) rfl⟩

theorem hartIndexBitsGo_eq_log (fuel : Nat) :
    ∀ n, n ≤ fuel → 1 ≤ n → hartIndexBitsGo fuel n = Nat.log 2 n + 1 := by
  induction fuel with
  | zero => intro n h1 h2; omega
  | succ f ih =>
      intro n hle hpos
      match n, hpos with
      | 1, _ =>
          have h0 : hartIndexBitsGo (f + 1) 1 = hartIndexBitsGo f 0 + 1 := rfl
          have h1 : hartIndexBitsGo f 0 = 0 := by
            match f with
            | 0 => rfl
            | _ + 1 => rfl
          rw [h0, h1, Nat.log_one_right]
      | m + 2, _ =>
          have he : hartIndexBitsGo (f + 1) (m + 2) =
              hartIndexBitsGo f ((m + 2) / 2) + 1 := rfl
          have hfl : (m + 2) / 2 ≤ f := by omega
          have hp2 : 1 ≤ (m + 2) / 2 := by omega
          rw [he, ih _ hfl hp2]
          have hd := Nat.log_div_base 2 (m + 2)
          have hpl : 0 < Nat.log 2 (m + 2) := Nat.log_pos (by omega) (by omega)
          omega

/-- C9 counterexample: with the `hart-index-bits` property absent and two
(reference, interrupt-number) pairs, the resolver's loop assigns
`HartIndexBits = 2`, whereas `ceil (log2 2) = 1`. -/
theorem imsicHartIndexBits_not_ceil_log2 :
    ¬ (imsicHartIndexBits none 2 = Nat.clog 2 2) := by
  have h1 : imsicHartIndexBits none 2 = 2 := rfl
  have h2 : Nat.clog 2 2 = 1 := Nat.clog_eq_one (by omega) (by omega)
  omega

/-- C9 (amended): when the `hart-index-bits` property is absent, the
resolver assigns `HartIndexBits` the bit length of the pair count `n`, i.e.
`floor (log2 n) + 1` — which agrees with `ceil (log2 n)` only when `n` is
not a power of two. -/
theorem imsicHartIndexBits_absent_is_bit_length (n : Nat) (h : 1 ≤ n) :
    imsicHartIndexBits none n = Nat.log 2 n + 1 := by
  show hartIndexBitsGo n n = Nat.log 2 n + 1
  exact hartIndexBitsGo_eq_log n n le_rfl h

theorem imsicHartIndexBits_absent_is_bit_length_witness :
    1 ≤ 5 ∧ imsicHartIndexBits none 5 = Nat.log 2 5 + 1 :=
  ⟨by decide, imsicHartIndexBits_absent_is_bit_length 5 (by decide)⟩

/-! ## Path lemmas for `BuildRhctTable` -/

theorem mod32_gt_max_eq_false (x : Nat) : (x % 4294967296 > MAX_UINT32) = False := by
  simp only [MAX_UINT32, eq_iff_iff, iff_false, not_lt]
  omega

theorem getIsaStringNodeSize_ok (s : List Nat)
    (h : isaStringNodeFixedSize + alignValue2 (s.length + 1) ≤ MAX_UINT16) :
    getIsaStringNodeSize s =
      .ok (isaStringNodeFixedSize + alignValue2 (s.length + 1)) := by
  simp only [getIsaStringNodeSize]
  rw [if_neg (by omega)]

theorem addHartInfoNodes_ok_of_fits (n : Nat) (offs : List Nat)
    (rs : List RintcInfo) (h : getHartInfoSize n ≤ MAX_UINT16) :
    ∃ bs, addHartInfoNodes n offs rs = .ok bs := by
  induction rs with
  | nil => exact ⟨[], rfl⟩
  | cons r rest ih =>
      obtain ⟨bs, hbs⟩ := ih
      refine ⟨serializeHartInfoNode n offs r.acpiProcessorUid ++ bs, ?_⟩
      simp only [addHartInfoNodes,
        if_neg (by omega : ¬ getHartInfoSize n > MAX_UINT16), hbs]

theorem getSizeofCmoNodes_fst (l : List CmoNode) :
    ∀ off, (getSizeofCmoNodes off l).1 = l.length * cmoNodeSize := by
  induction l with
  | nil => intro off; rfl
  | cons x xs ih =>
      intro off
      simp only [getSizeofCmoNodes, ih, List.length_cons, cmoNodeSize,
        nodeHeaderSize]
      omega

/-- The success path of `BuildRhctTable` for one ISA string, an arbitrary CMO
list and at least one hart: no guard constrains the CMO group size, the
serialized table is the header followed by the three node groups, and the
node indexer, the table buffer and the offsets scratch array are all still
allocated at return. -/
theorem buildRhct_ok_path (timer : TimerInfo) (isaStr : List Nat)
    (cmo : List CmoNode) (r0 : RintcInfo) (rrest : List RintcInfo)
    (hIsa : isaStringNodeFixedSize + alignValue2 (isaStr.length + 1) ≤ MAX_UINT16)
    (hHart : getHartInfoSize (1 + cmo.length) ≤ MAX_UINT16) :
    ∃ isaB hartB,
      addIsaStringNode isaStr = .ok isaB ∧
      addHartInfoNodes (1 + cmo.length)
          (mkOffsets (1 + cmo.length) 1 rhctTableHeaderSize cmo.length
            (rhctTableHeaderSize +
              (isaStringNodeFixedSize + alignValue2 (isaStr.length + 1))))
          (r0 :: rrest) = .ok hartB ∧
      buildRhctTable { revisionSupported := true, timerRes := .ok timer,
                       isaRes := .ok [isaStr], cmoRes := .ok cmo,
                       rintcRes := .ok (r0 :: rrest) } =
        { status := .success,
          table := some (acpiHeaderBytes ++
            le32 (([isaStr].length + cmo.length + (r0 :: rrest).length) %
              4294967296) ++
            le32 rhctTableHeaderSize ++
            le64 (timer.timeBaseFrequency % 18446744073709551616) ++
            le64 (if timer.timerCannotWakeCpu then 1 else 0) ++
            isaB ++ (if 0 < cmo.length then addCmoNodes cmo else []) ++ hartB),
          liveAllocs := [.nodeIndexer, .table, .offsets] } := by
  have hsize := getIsaStringNodeSize_ok isaStr hIsa
  have hmodOff : (rhctTableHeaderSize +
      (isaStringNodeFixedSize + alignValue2 (isaStr.length + 1))) % 4294967296 =
      rhctTableHeaderSize +
        (isaStringNodeFixedSize + alignValue2 (isaStr.length + 1)) := by
    apply Nat.mod_eq_of_lt
    simp only [MAX_UINT16] at hIsa
    simp only [rhctTableHeaderSize]
    omega
  have hisaB : addIsaStringNode isaStr = .ok
      (le16 rhctNodeTypeIsa ++
        le16 ((isaStringNodeFixedSize + alignValue2 (isaStr.length + 1)) % 65536) ++
        [rhctNodeRevision] ++ le16 ((isaStr.length + 2) % 65536) ++ isaStr ++ [0] ++
        List.replicate
          (isaStringNodeFixedSize + alignValue2 (isaStr.length + 1) -
            (isaStringNodeFixedSize + isaStr.length + 1)) 0) := by
    simp only [addIsaStringNode, hsize]
  obtain ⟨hartB, hhartB⟩ := addHartInfoNodes_ok_of_fits (1 + cmo.length)
    (mkOffsets (1 + cmo.length) 1 rhctTableHeaderSize cmo.length
      (rhctTableHeaderSize +
        (isaStringNodeFixedSize + alignValue2 (isaStr.length + 1))))
    (r0 :: rrest) hHart
  have hpos : (r0 :: rrest).length > 0 := by simp
  refine ⟨_, hartB, hisaB, hhartB, ?_⟩
  simp [buildRhctTable, hsize, hmodOff, hisaB, hhartB, hpos,
    mod32_gt_max_eq_false, Except.map]

/-- The Hart-Info-write failure path of `BuildRhctTable` (no ISA node, so the
shared offset count equals the CMO node count): the error label frees the
node indexer and the output buffer and resets `*Table` to null, but the
offsets scratch array stays allocated. -/
theorem buildRhct_hart_overflow_path (timer : TimerInfo) (cmo : List CmoNode)
    (r0 : RintcInfo) (rrest : List RintcInfo)
    (h : getHartInfoSize cmo.length > MAX_UINT16) :
    buildRhctTable { revisionSupported := true, timerRes := .ok timer,
                     isaRes := .ok [], cmoRes := .ok cmo,
                     rintcRes := .ok (r0 :: rrest) } =
      { status := .invalidParameter, table := none, liveAllocs := [.offsets] } := by
  have haddFail : ∀ offs, addHartInfoNodes cmo.length offs (r0 :: rrest) =
      .error .invalidParameter := by
    intro offs
    simp only [addHartInfoNodes, if_pos h]
  have hpos : (r0 :: rrest).length > 0 := by simp
  simp [buildRhctTable, haddFail, hpos, mod32_gt_max_eq_false, Except.map]

/-- Sample objects for the concrete `BuildRhctTable` runs. -/
def sampleTimer : TimerInfo :=
  { timeBaseFrequency := 10000000, timerCannotWakeCpu := false }

def sampleCmoNode : CmoNode :=
  { cbomBlockSize := 6, cbopBlockSize := 6, cbozBlockSize := 6 }

def sampleRintc : RintcInfo :=
  { flags := 1, hartId := 0, version := 1, acpiProcessorUid := 0,
    extIntcId := 0, imsicBaseAddress := 0, imsicSize := 0 }

/-- C3 counterexample: 8192 CMO nodes give a CMO node-group size of
65536 > 65535 bytes, yet `BuildRhctTable` succeeds and allocates the output
buffer — no Overflow failure occurs. -/
theorem cmoGroupOverCeiling_builds_anyway :
    (getSizeofCmoNodes
        (rhctTableHeaderSize +
          (isaStringNodeFixedSize +
            alignValue2 ([114, 118, 54, 52, 105].length + 1)))
        (List.replicate 8192 sampleCmoNode)).1 > MAX_UINT16 ∧
    (buildRhctTable { revisionSupported := true, timerRes := .ok sampleTimer,
                      isaRes := .ok [[114, 118, 54, 52, 105]],
                      cmoRes := .ok (List.replicate 8192 sampleCmoNode),
                      rintcRes := .ok (sampleRintc :: []) }).status = .success ∧
    (buildRhctTable { revisionSupported := true, timerRes := .ok sampleTimer,
                      isaRes := .ok [[114, 118, 54, 52, 105]],
                      cmoRes := .ok (List.replicate 8192 sampleCmoNode),
                      rintcRes := .ok (sampleRintc :: []) }).table.isSome = true := by
  obtain ⟨isaB, hartB, _, _, hEq⟩ := buildRhct_ok_path sampleTimer
    [114, 118, 54, 52, 105] (List.replicate 8192 sampleCmoNode) sampleRintc []
    (by decide)
    (by rw [List.length_replicate]; decide)
  refine ⟨?_, ?_, ?_⟩
  · rw [getSizeofCmoNodes_fst, List.length_replicate]
    decide
  · rw [hEq]
  · rw [hEq]
    rfl

/-- C3 (amended): no guard constrains the CMO node-group size — for an ISA
string that fits the 16-bit node-length field and a Hart-Info node that fits
it, construction succeeds and allocates the output buffer for a CMO list of
any length whatsoever (the only guards on the group sizes compare 32-bit
values against `MAX_UINT32` and can never fire). -/
theorem buildRhct_no_cmo_group_ceiling (timer : TimerInfo) (isaStr : List Nat)
    (cmo : List CmoNode) (r0 : RintcInfo) (rrest : List RintcInfo)
    (hIsa : isaStringNodeFixedSize + alignValue2 (isaStr.length + 1) ≤ MAX_UINT16)
    (hHart : getHartInfoSize (1 + cmo.length) ≤ MAX_UINT16) :
    (buildRhctTable { revisionSupported := true, timerRes := .ok timer,
                      isaRes := .ok [isaStr], cmoRes := .ok cmo,
                      rintcRes := .ok (r0 :: rrest) }).status = .success ∧
    (buildRhctTable { revisionSupported := true, timerRes := .ok timer,
                      isaRes := .ok [isaStr], cmoRes := .ok cmo,
                      rintcRes := .ok (r0 :: rrest) }).table.isSome = true := by
  obtain ⟨isaB, hartB, _, _, hEq⟩ :=
    buildRhct_ok_path timer isaStr cmo r0 rrest hIsa hHart
  rw [hEq]
  exact ⟨rfl, rfl⟩

theorem buildRhct_no_cmo_group_ceiling_witness :
    (isaStringNodeFixedSize + alignValue2 ([114].length + 1) ≤ MAX_UINT16) ∧
    (getHartInfoSize (1 + ([] : List CmoNode).length) ≤ MAX_UINT16) ∧
    ((buildRhctTable { revisionSupported := true, timerRes := .ok sampleTimer,
                       isaRes := .ok [[114]], cmoRes := .ok [],
                       rintcRes := .ok (sampleRintc :: []) }).status = .success ∧
     (buildRhctTable { revisionSupported := true, timerRes := .ok sampleTimer,
                       isaRes := .ok [[114]], cmoRes := .ok [],
                       rintcRes := .ok (sampleRintc :: []) }).table.isSome = true) :=
  ⟨by decide, by decide,
   buildRhct_no_cmo_group_ceiling sampleTimer [114] [] sampleRintc []
     (by decide) (by decide)⟩

/-- C4 counterexample: 16382 CMO nodes and no ISA node make the Hart-Info
node length 65539 > 65535, so the Hart-Info write fails after the offsets
scratch array was allocated; the call returns a failure with the node
indexer and table released and `*Table` null — but the offsets scratch
array is still allocated, refuting "every allocation made during the call is
released". -/
theorem buildRhct_failure_leaves_offsets_allocated :
    (buildRhctTable { revisionSupported := true, timerRes := .ok sampleTimer,
                      isaRes := .ok [],
                      cmoRes := .ok (List.replicate 16382 sampleCmoNode),
                      rintcRes := .ok (sampleRintc :: []) }) =
      { status := .invalidParameter, table := none,
        liveAllocs := [.offsets] } ∧
    AllocTag.offsets ∈
      (buildRhctTable { revisionSupported := true, timerRes := .ok sampleTimer,
                        isaRes := .ok [],
                        cmoRes := .ok (List.replicate 16382 sampleCmoNode),
                        rintcRes := .ok (sampleRintc :: []) }).liveAllocs := by
  have hEq := buildRhct_hart_overflow_path sampleTimer
    (List.replicate 16382 sampleCmoNode) sampleRintc []
    (by rw [List.length_replicate]; decide)
  exact ⟨hEq, by rw [hEq]; exact List.mem_singleton.mpr rfl⟩

/-- C4 (amended): on failure the node indexer and the output buffer are
released and the output pointer is reset to null — a failing getter releases
everything — but the offsets scratch array is not paired with a release: a
Hart-Info-write failure returns with it still allocated. -/
theorem buildRhct_failure_cleanup_except_offsets (timer : TimerInfo)
    (cmo : List CmoNode) (r0 : RintcInfo) (rrest : List RintcInfo)
    (hOv : getHartInfoSize cmo.length > MAX_UINT16) :
    (∀ e isaR cmoR rintcR,
      buildRhctTable { revisionSupported := true, timerRes := .error e,
                       isaRes := isaR, cmoRes := cmoR, rintcRes := rintcR } =
        { status := e, table := none, liveAllocs := [] }) ∧
    ((buildRhctTable { revisionSupported := true, timerRes := .ok timer,
                       isaRes := .ok [], cmoRes := .ok cmo,
                       rintcRes := .ok (r0 :: rrest) }).status ≠ .success ∧
     (buildRhctTable { revisionSupported := true, timerRes := .ok timer,
                       isaRes := .ok [], cmoRes := .ok cmo,
                       rintcRes := .ok (r0 :: rrest) }).table = none ∧
     AllocTag.nodeIndexer ∉
       (buildRhctTable { revisionSupported := true, timerRes := .ok timer,
                         isaRes := .ok [], cmoRes := .ok cmo,
                         rintcRes := .ok (r0 :: rrest) }).liveAllocs ∧
     AllocTag.table ∉
       (buildRhctTable { revisionSupported := true, timerRes := .ok timer,
                         isaRes := .ok [], cmoRes := .ok cmo,
                         rintcRes := .ok (r0 :: rrest) }).liveAllocs ∧
     AllocTag.offsets ∈
       (buildRhctTable { revisionSupported := true, timerRes := .ok timer,
                         isaRes := .ok [], cmoRes := .ok cmo,
                         rintcRes := .ok (r0 :: rrest) }).liveAllocs) := by
  have hEq := buildRhct_hart_overflow_path timer cmo r0 rrest hOv
  refine ⟨fun e isaR cmoR rintcR => rfl, ?_, ?_, ?_, ?_, ?_⟩
  · rw [hEq]
    intro hc
    exact EfiStatus.noConfusion hc
  · rw [hEq]
  · rw [hEq]
    simp
  · rw [hEq]
    simp
  · rw [hEq]
    exact List.mem_singleton.mpr rfl

theorem buildRhct_failure_cleanup_except_offsets_witness :
    getHartInfoSize (List.replicate 16382 sampleCmoNode).length > MAX_UINT16 ∧
    (buildRhctTable { revisionSupported := true, timerRes := .ok sampleTimer,
                      isaRes := .ok [],
                      cmoRes := .ok (List.replicate 16382 sampleCmoNode),
                      rintcRes := .ok (sampleRintc :: []) }).table = none ∧
    AllocTag.offsets ∈
      (buildRhctTable { revisionSupported := true, timerRes := .ok sampleTimer,
                        isaRes := .ok [],
                        cmoRes := .ok (List.replicate 16382 sampleCmoNode),
                        rintcRes := .ok (sampleRintc :: []) }).liveAllocs := by
  have hb : getHartInfoSize (List.replicate 16382 sampleCmoNode).length >
      MAX_UINT16 := by
    rw [List.length_replicate]; decide
  obtain ⟨_, h2, _, _, h5⟩ :=
    (buildRhct_failure_cleanup_except_offsets sampleTimer
      (List.replicate 16382 sampleCmoNode) sampleRintc [] hb).2
  exact ⟨hb, h2, h5⟩

/-! ## The `ProcUid` static across invocations -/

theorem cpusLoop_uids (cells : Nat) :
    ∀ (cpus : List CpuNodeIn) (s : Nat), s < 4294967296 →
    ∀ rs u, cpusLoop s cells cpus = (.ok rs, u) →
      rs.map (fun r => r.acpiProcessorUid) =
        (List.range cpus.length).map (fun i => (s + i) % 4294967296) ∧
      u = (s + cpus.length) % 4294967296 := by
  intro cpus
  induction cpus with
  | nil =>
      intro s hs rs u h
      simp only [cpusLoop, Prod.mk.injEq, Except.ok.injEq] at h
      obtain ⟨hrs, hu⟩ := h
      subst hrs hu
      simp [Nat.mod_eq_of_lt hs]
  | cons cpu rest ih =>
      intro s hs rs u h
      rcases hcompat : cpu.compatibleRiscv with _ | _
      · simp [cpusLoop, hcompat] at h
      · simp only [cpusLoop, hcompat, Bool.not_eq_true, if_neg,
          Bool.true_eq_false, ite_false] at h
        rcases hreg : cpu.regBytes with _ | data
        · simp [cpuNodeParser, hreg] at h
        · by_cases hd : data.length ≠ 4 ∧ data.length ≠ 8
          · simp [cpuNodeParser, hreg, if_pos hd] at h
          · simp only [cpuNodeParser, hreg, if_neg hd] at h
            rcases hrec : cpusLoop ((s + 1) % 4294967296) cells rest with ⟨res, u2⟩
            rcases res with e | rs2
            · rw [hrec] at h
              simp at h
            · rw [hrec] at h
              simp at h
              obtain ⟨hrs, hu⟩ := h
              subst hrs hu
              have hslt : (s + 1) % 4294967296 < 4294967296 :=
                Nat.mod_lt _ (by omega)
              obtain ⟨ihmap, ihu⟩ := ih ((s + 1) % 4294967296) hslt rs2 u2 hrec
              constructor
              · simp only [List.map_cons, List.length_cons,
                  List.range_succ_eq_map, List.map_map, ihmap]
                rw [Nat.add_zero]
                congr 1
                apply List.map_congr_left
                intro i _
                simp only [Function.comp]
                rw [Nat.mod_add_mod]
                congr 1
                omega
              · rw [ihu, Nat.mod_add_mod, List.length_cons]
                congr 1
                omega

/-- Sample hart node for the pipeline runs: valid 4-byte `reg`, a nested
interrupt-controller sub-node present, `riscv`-compatible. -/
def pipelineCpu : CpuNodeIn :=
  { regBytes := some [0, 0, 0, 0], hasIntcSubnode := true,
    compatibleRiscv := true }

/-- C1 counterexample: running the whole pipeline twice on the same
unmodified input (one hart, one ISA string, no CMO objects) succeeds both
times but yields different output tables, because the `ProcUid` counter is a
function-`STATIC` that persists across invocations: the second run stores
Uid 1 instead of 0 in its Hart-Info node. -/
theorem rhctPipeline_second_run_differs :
    (rhctPipeline 0 1 [pipelineCpu] sampleTimer [[114]] []).1.status =
      .success ∧
    (rhctPipeline (rhctPipeline 0 1 [pipelineCpu] sampleTimer [[114]] []).2 1
        [pipelineCpu] sampleTimer [[114]] []).1.status = .success ∧
    (rhctPipeline 0 1 [pipelineCpu] sampleTimer [[114]] []).1.table ≠
      (rhctPipeline (rhctPipeline 0 1 [pipelineCpu] sampleTimer [[114]] []).2 1
        [pipelineCpu] sampleTimer [[114]] []).1.table := by
  decide

/-- C1 (amended): the hart-identifier counter is not call-scoped — it is a
process-wide static that persists across invocations.  A first successful
invocation assigns Uids `0, 1, …, N-1` and leaves the counter at `N`; a
second invocation over the same tree assigns `N, N+1, …` (mod 2^32), so its
hart records — and hence the serialized Hart-Info nodes — differ from the
first run's whenever at least one hart exists. -/
theorem procUid_counter_persists (cells : Int) (cpus : List CpuNodeIn)
    (rs1 rs2 : List RintcInfo)
    (hn : 1 ≤ cpus.length) (hlt : cpus.length < 4294967296)
    (h1 : (cpusNodeParser 0 cells cpus).1 = .ok rs1)
    (h2 : (cpusNodeParser (cpusNodeParser 0 cells cpus).2 cells cpus).1 =
      .ok rs2) :
    rs1.map (fun r => r.acpiProcessorUid) = List.range cpus.length ∧
    (cpusNodeParser 0 cells cpus).2 = cpus.length ∧
    rs2.map (fun r => r.acpiProcessorUid) =
      (List.range cpus.length).map
        (fun i => (cpus.length + i) % 4294967296) ∧
    rs1 ≠ rs2 := by
  have hcells : ¬ cells < 0 := by
    intro hc
    rw [cpusNodeParser, if_pos hc] at h1
    exact absurd h1 (by simp)
  have hlen : ¬ cpus.length = 0 := by omega
  have hloop1 : cpusLoop 0 cells.toNat cpus =
      ((cpusNodeParser 0 cells cpus).1, (cpusNodeParser 0 cells cpus).2) := by
    rw [cpusNodeParser, if_neg hcells, if_neg hlen]
  obtain ⟨hm1, hu1⟩ := cpusLoop_uids cells.toNat cpus 0 (by omega) rs1
    (cpusNodeParser 0 cells cpus).2 (by rw [hloop1, h1])
  have hu1' : (cpusNodeParser 0 cells cpus).2 = cpus.length := by
    rw [hu1, Nat.zero_add, Nat.mod_eq_of_lt hlt]
  have hloop2 : cpusLoop cpus.length cells.toNat cpus =
      ((cpusNodeParser (cpusNodeParser 0 cells cpus).2 cells cpus).1,
       (cpusNodeParser (cpusNodeParser 0 cells cpus).2 cells cpus).2) := by
    rw [cpusNodeParser, if_neg hcells, if_neg hlen, hu1']
  obtain ⟨hm2, _⟩ := cpusLoop_uids cells.toNat cpus cpus.length hlt rs2
    (cpusNodeParser (cpusNodeParser 0 cells cpus).2 cells cpus).2
    (by rw [hloop2, h2])
  refine ⟨?_, hu1', hm2, ?_⟩
  · rw [hm1]
    have hcg : (List.range cpus.length).map (fun i => (0 + i) % 4294967296) =
        (List.range cpus.length).map (fun i => i) := by
      apply List.map_congr_left
      intro i hi
      rw [List.mem_range] at hi
      omega
    rw [hcg, List.map_id']
  · intro heq
    have hmm : (List.range cpus.length).map (fun i => (0 + i) % 4294967296) =
        (List.range cpus.length).map
          (fun i => (cpus.length + i) % 4294967296) := by
      rw [← hm1, ← hm2, heq]
    rw [List.map_inj_left] at hmm
    have h0 := hmm 0 (List.mem_range.mpr (by omega))
    rw [Nat.add_zero, Nat.add_zero, Nat.zero_mod, Nat.mod_eq_of_lt hlt] at h0
    omega

theorem procUid_counter_persists_witness :
    1 ≤ [pipelineCpu].length ∧ [pipelineCpu].length < 4294967296 ∧
    ∃ rs1 rs2,
      (cpusNodeParser 0 1 [pipelineCpu]).1 = .ok rs1 ∧
      (cpusNodeParser (cpusNodeParser 0 1 [pipelineCpu]).2 1 [pipelineCpu]).1 =
        .ok rs2 ∧
      rs1.map (fun r => r.acpiProcessorUid) = List.range [pipelineCpu].length ∧
      rs1 ≠ rs2 := by
  refine ⟨by decide, by decide, ?_⟩
  refine ⟨[{ flags := 1, hartId := 0, version := 1, acpiProcessorUid := 0,
             extIntcId := 0, imsicBaseAddress := 0, imsicSize := 0 }],
          [{ flags := 1, hartId := 0, version := 1, acpiProcessorUid := 1,
             extIntcId := 0, imsicBaseAddress := 0, imsicSize := 0 }],
          rfl, rfl, ?_, ?_⟩
  · exact (procUid_counter_persists 1 [pipelineCpu]
      [{ flags := 1, hartId := 0, version := 1, acpiProcessorUid := 0,
         extIntcId := 0, imsicBaseAddress := 0, imsicSize := 0 }]
      [{ flags := 1, hartId := 0, version := 1, acpiProcessorUid := 1,
         extIntcId := 0, imsicBaseAddress := 0, imsicSize := 0 }]
      (by decide) (by decide) rfl rfl).1
  · exact (procUid_counter_persists 1 [pipelineCpu]
      [{ flags := 1, hartId := 0, version := 1, acpiProcessorUid := 0,
         extIntcId := 0, imsicBaseAddress := 0, imsicSize := 0 }]
      [{ flags := 1, hartId := 0, version := 1, acpiProcessorUid := 1,
         extIntcId := 0, imsicBaseAddress := 0, imsicSize := 0 }]
      (by decide) (by decide) rfl rfl).2.2.2

/-! ## Hart-Info node structure -/

theorem le16_length (x : Nat) : (le16 x).length = 2 := rfl

theorem le32_length (x : Nat) : (le32 x).length = 4 := rfl

theorem flatMapLe32_length (offs : List Nat) :
    ((offs.map fun o => le32 (o % 4294967296)).flatten).length = 4 * offs.length := by
  induction offs with
  | nil => rfl
  | cons o os ih =>
      simp only [List.map_cons, List.flatten_cons, List.length_append, ih,
        le32_length, List.length_cons]
      omega

theorem serializeHartInfoNode_length (n : Nat) (offs : List Nat) (uid : Nat)
    (hlen : offs.length = n) :
    (serializeHartInfoNode n offs uid).length = getHartInfoSize n := by
  simp only [serializeHartInfoNode, List.length_append, le16_length,
    le32_length, flatMapLe32_length, hlen, List.length_cons, List.length_nil,
    getHartInfoSize, hartInfoNodeFixedSize, nodeHeaderSize]

theorem rd16_append_right (l l' : List Nat) (m : Nat) :
    rd16 (l ++ l') (l.length + m) = rd16 l' m := by
  simp only [rd16, List.getD_append_right l l' 0 (l.length + m) (by omega)]
  rw [show l.length + m + 1 = l.length + (m + 1) by omega,
    List.getD_append_right l l' 0 (l.length + (m + 1)) (by omega)]
  simp [Nat.add_sub_cancel_left]

theorem mkOffsets_length (n i io c co : Nat)
    (h : (if 0 < i then 1 else 0) + (if 0 < c then 1 else 0) ≤ n) :
    (mkOffsets n i io c co).length = n := by
  simp only [mkOffsets, List.length_append, List.length_replicate]
  split_ifs with h1 h2 h3 <;> split_ifs at h <;> simp_all

/-- Every Hart-Info node in the serialized group carries the shared offset
count in its 16-bit offset-count field and the same serialized offsets array
as its trailing bytes. -/
theorem addHartInfoNodes_slices (n : Nat) (offs : List Nat)
    (hlen : offs.length = n) (hfit : getHartInfoSize n ≤ MAX_UINT16) :
    ∀ rs bs, addHartInfoNodes n offs rs = .ok bs →
    ∀ i, i < rs.length →
      rd16 bs (i * getHartInfoSize n + 5) = n ∧
      (bs.drop (i * getHartInfoSize n + hartInfoNodeFixedSize)).take (4 * n) =
        (offs.map fun o => le32 (o % 4294967296)).flatten := by
  have hb : n ≤ 16381 := by
    simp only [getHartInfoSize, hartInfoNodeFixedSize, nodeHeaderSize,
      MAX_UINT16] at hfit
    omega
  intro rs
  induction rs with
  | nil =>
      intro bs _ i hi
      exact absurd hi (by simp)
  | cons r rest ih =>
      intro bs h i hi
      simp only [addHartInfoNodes,
        if_neg (by omega : ¬ getHartInfoSize n > MAX_UINT16)] at h
      rcases hrec : addHartInfoNodes n offs rest with e | bs'
      · rw [hrec] at h
        simp at h
      · rw [hrec] at h
        simp only [Except.ok.injEq] at h
        subst h
        have hL := serializeHartInfoNode_length n offs r.acpiProcessorUid hlen
        cases i with
        | zero =>
            simp only [Nat.zero_mul, Nat.zero_add]
            constructor
            · show rd16 (serializeHartInfoNode n offs r.acpiProcessorUid ++ bs')
                5 = n
              show n % 65536 % 256 + 256 * (n % 65536 / 256 % 256) = n
              omega
            · show (((offs.map fun o => le32 (o % 4294967296)).flatten ++
                  bs').take (4 * n)) =
                (offs.map fun o => le32 (o % 4294967296)).flatten
              rw [show 4 * n =
                  ((offs.map fun o => le32 (o % 4294967296)).flatten).length by
                rw [flatMapLe32_length, hlen]]
              exact List.take_left _ _
        | succ j =>
            have hidx : (j + 1) * getHartInfoSize n + 5 =
                (serializeHartInfoNode n offs r.acpiProcessorUid).length +
                  (j * getHartInfoSize n + 5) := by
              rw [hL]
              ring
            have hidx2 : (j + 1) * getHartInfoSize n + hartInfoNodeFixedSize =
                (serializeHartInfoNode n offs r.acpiProcessorUid).length +
                  (j * getHartInfoSize n + hartInfoNodeFixedSize) := by
              rw [hL]
              ring
            have hij : j < rest.length := by
              simp only [List.length_cons] at hi
              omega
            obtain ⟨ih1, ih2⟩ := ih bs' hrec j hij
            constructor
            · rw [hidx, rd16_append_right]
              exact ih1
            · rw [hidx2, List.drop_append]
              exact ih2

/-- C2 counterexample: with one ISA string and two CMO configuration
objects, two prior non-hart node groups exist, yet the Hart-Info node's
offset-count field stores 3 — the count of prior non-hart *nodes*
(1 ISA node + 2 CMO nodes), not the count of prior groups (2). -/
theorem hartInfo_offset_count_counterexample :
    ∃ t,
      (buildRhctTable { revisionSupported := true, timerRes := .ok sampleTimer,
                        isaRes := .ok [[114]],
                        cmoRes := .ok [sampleCmoNode, sampleCmoNode],
                        rintcRes := .ok [sampleRintc] }).table = some t ∧
      rd16 t 90 = 3 ∧ (3 : Nat) ≠ 2 :=
  ⟨_, rfl, by decide, by decide⟩

/-- C2 (amended): on every successful build the Hart-Info nodes all carry
one identical trailing offset array — the serialization of the shared
`Offsets` scratch array, whose first entries are the ISA and CMO group byte
offsets — but its entry count equals the number of prior non-hart *nodes*
(ISA-string node count plus CMO node count), not the number of prior node
groups. -/
theorem hartInfo_nodes_share_offset_array (timer : TimerInfo)
    (isaStr : List Nat) (cmo : List CmoNode) (r0 : RintcInfo)
    (rrest : List RintcInfo)
    (hIsa : isaStringNodeFixedSize + alignValue2 (isaStr.length + 1) ≤ MAX_UINT16)
    (hHart : getHartInfoSize (1 + cmo.length) ≤ MAX_UINT16) :
    ∃ pre hartB,
      (buildRhctTable { revisionSupported := true, timerRes := .ok timer,
                        isaRes := .ok [isaStr], cmoRes := .ok cmo,
                        rintcRes := .ok (r0 :: rrest) }).status = .success ∧
      (buildRhctTable { revisionSupported := true, timerRes := .ok timer,
                        isaRes := .ok [isaStr], cmoRes := .ok cmo,
                        rintcRes := .ok (r0 :: rrest) }).table =
        some (pre ++ hartB) ∧
      addHartInfoNodes (1 + cmo.length)
          (mkOffsets (1 + cmo.length) 1 rhctTableHeaderSize cmo.length
            (rhctTableHeaderSize +
              (isaStringNodeFixedSize + alignValue2 (isaStr.length + 1))))
          (r0 :: rrest) = .ok hartB ∧
      ∀ i, i < (r0 :: rrest).length →
        rd16 hartB (i * getHartInfoSize (1 + cmo.length) + 5) =
          1 + cmo.length ∧
        (hartB.drop (i * getHartInfoSize (1 + cmo.length) +
            hartInfoNodeFixedSize)).take (4 * (1 + cmo.length)) =
          ((mkOffsets (1 + cmo.length) 1 rhctTableHeaderSize cmo.length
              (rhctTableHeaderSize +
                (isaStringNodeFixedSize +
                  alignValue2 (isaStr.length + 1)))).map
            fun o => le32 (o % 4294967296)).flatten := by
  obtain ⟨isaB, hartB, hisaB, hhartB, hEq⟩ :=
    buildRhct_ok_path timer isaStr cmo r0 rrest hIsa hHart
  have hlen : (mkOffsets (1 + cmo.length) 1 rhctTableHeaderSize cmo.length
      (rhctTableHeaderSize +
        (isaStringNodeFixedSize + alignValue2 (isaStr.length + 1)))).length =
      1 + cmo.length := by
    apply mkOffsets_length
    split_ifs <;> omega
  refine ⟨_, hartB, by rw [hEq], by rw [hEq], hhartB, ?_⟩
  exact addHartInfoNodes_slices (1 + cmo.length) _ hlen hHart (r0 :: rrest)
    hartB hhartB

theorem hartInfo_nodes_share_offset_array_witness :
    (isaStringNodeFixedSize + alignValue2 ([114].length + 1) ≤ MAX_UINT16) ∧
    (getHartInfoSize (1 + [sampleCmoNode].length) ≤ MAX_UINT16) ∧
    ∃ pre hartB,
      (buildRhctTable { revisionSupported := true, timerRes := .ok sampleTimer,
                        isaRes := .ok [[114]], cmoRes := .ok [sampleCmoNode],
                        rintcRes := .ok (sampleRintc ::
                          [{ flags := 1, hartId := 1, version := 1,
                             acpiProcessorUid := 1, extIntcId := 0,
                             imsicBaseAddress := 0, imsicSize := 0 }]) }).status =
        .success ∧
      (buildRhctTable { revisionSupported := true, timerRes := .ok sampleTimer,
                        isaRes := .ok [[114]], cmoRes := .ok [sampleCmoNode],
                        rintcRes := .ok (sampleRintc ::
                          [{ flags := 1, hartId := 1, version := 1,
                             acpiProcessorUid := 1, extIntcId := 0,
                             imsicBaseAddress := 0, imsicSize := 0 }]) }).table =
        some (pre ++ hartB) ∧
      addHartInfoNodes (1 + [sampleCmoNode].length)
          (mkOffsets (1 + [sampleCmoNode].length) 1 rhctTableHeaderSize
            [sampleCmoNode].length
            (rhctTableHeaderSize +
              (isaStringNodeFixedSize + alignValue2 ([114].length + 1))))
          (sampleRintc ::
            [{ flags := 1, hartId := 1, version := 1, acpiProcessorUid := 1,
               extIntcId := 0, imsicBaseAddress := 0, imsicSize := 0 }]) =
        .ok hartB ∧
      ∀ i, i < (sampleRintc ::
          [{ flags := 1, hartId := 1, version := 1, acpiProcessorUid := 1,
             extIntcId := 0, imsicBaseAddress := 0, imsicSize := 0 }]).length →
        rd16 hartB (i * getHartInfoSize (1 + [sampleCmoNode].length) + 5) =
          1 + [sampleCmoNode].length ∧
        (hartB.drop (i * getHartInfoSize (1 + [sampleCmoNode].length) +
            hartInfoNodeFixedSize)).take (4 * (1 + [sampleCmoNode].length)) =
          ((mkOffsets (1 + [sampleCmoNode].length) 1 rhctTableHeaderSize
              [sampleCmoNode].length
              (rhctTableHeaderSize +
                (isaStringNodeFixedSize + alignValue2 ([114].length + 1)))).map
            fun o => le32 (o % 4294967296)).flatten :=
  ⟨by decide, by decide,
   hartInfo_nodes_share_offset_array sampleTimer [114] [sampleCmoNode]
     sampleRintc
     [{ flags := 1, hartId := 1, version := 1, acpiProcessorUid := 1,
        extIntcId := 0, imsicBaseAddress := 0, imsicSize := 0 }]
     (by decide) (by decide)⟩

/-! ## The PLIC/APLIC scan: S-mode selection -/

theorem isAplicNode_compat {dt : DeviceTree} {n : DtNode}
    (h : isAplicNode dt n = true) :
    "riscv,aplic" ∈ n.compatible := by
  by_cases hcc : "riscv,aplic" ∈ n.compatible
  · exact hcc
  · simp [isAplicNode, hcc] at h

/-- Nodes that are neither a PLIC nor a qualifying APLIC are passed over by
the scan without touching its state and without raising an error. -/
theorem plicAplic_skip_nonmatching (dt : DeviceTree) :
    ∀ (l : List DtNode) (rest : List DtNode) (st : PlicAplicScanState),
      (∀ n ∈ l, isPlicNode n = false ∧ isAplicNode dt n = false) →
      (l ++ rest).foldlM (plicAplicStep dt) st =
        rest.foldlM (plicAplicStep dt) st := by
  intro l
  induction l with
  | nil => intro rest st _; rfl
  | cons n ns ih =>
      intro rest st hall
      obtain ⟨h1, h2⟩ := hall n (List.mem_cons_self n ns)
      have hstep : plicAplicStep dt st n = .ok st := by
        simp [plicAplicStep, h1, h2]
      simp only [List.cons_append, List.foldlM_cons, hstep]
      show (ns ++ rest).foldlM (plicAplicStep dt) st =
        rest.foldlM (plicAplicStep dt) st
      exact ih rest st (fun x hx => hall x (List.mem_cons_of_mem n hx))

/-- Processing one qualifying (supervisor-mode) APLIC node with well-formed
mandatory properties: the scan emits one APLIC controller record, performs
the APLIC hart back-annotation, advances the GSI counter and the sequence
id, and re-registers the external-controller list with just this node. -/
theorem plicAplicStep_smode_aplic (dt : DeviceTree) (st : PlicAplicScanState)
    (n : DtNode) (pNum pReg : DtProp)
    (hap : isAplicNode dt n = true) (hpl : isPlicNode n = false)
    (hnum : n.getProp "riscv,num-sources" = some pNum)
    (hreg : n.getProp "reg" = some pReg) (hb4 : pReg.bytes % 4 = 0) :
    plicAplicStep dt st n = .ok
      { gsiBase := (st.gsiBase + prop32 pNum) % 4294967296,
        id := st.id + 1,
        extIntcList := [{ extIntcNode := n.offset, gsiBase := st.gsiBase }],
        rintcs := (aplicBranch dt st.id n st.rintcs).2,
        records := st.records ++
          [.aplic { version := 1, id := st.id, numSources := prop32 pNum,
                    baseAddress := prop64 pReg,
                    size := prop64 { bytes := pReg.bytes,
                                     cells := pReg.cells.drop 2 },
                    gsiBase := st.gsiBase, hwId := hwIdAplic }
            (aplicBranch dt st.id n st.rintcs).1] } := by
  have hcc := isAplicNode_compat hap
  rcases hbr : aplicBranch dt st.id n st.rintcs with ⟨numIdcs, rintcs1⟩
  simp [plicAplicStep, hap, hpl, hnum, hreg, hb4, hcc, hbr,
    fdtCreateExtIntcList]

/-- C8: with a Kind-B (APLIC) node `m` that fails the supervisor-mode test
somewhere before a qualifying S-mode APLIC node `s` (every other scanned
node also being neither PLIC nor qualifying APLIC), the scan succeeds and
yields exactly one controller record — the S-mode one, carrying the APLIC
hardware-id tag and sequence id 0 — together with the S-mode node's hart
back-annotation; the M-mode node is silently skipped without producing an
error or a record. -/
theorem plicAplic_smode_only (dt : DeviceTree) (pre post : List DtNode)
    (m s : DtNode) (pNum pReg : DtProp) (rintcs : List RintcInfo)
    (hnodes : dt.nodes = pre ++ s :: post)
    (hm : m ∈ pre) (hmB : "riscv,aplic" ∈ m.compatible)
    (hskip : ∀ n ∈ pre, isPlicNode n = false ∧ isAplicNode dt n = false)
    (hskip2 : ∀ n ∈ post, isPlicNode n = false ∧ isAplicNode dt n = false)
    (hap : isAplicNode dt s = true) (hpl : isPlicNode s = false)
    (hnum : s.getProp "riscv,num-sources" = some pNum)
    (hreg : s.getProp "reg" = some pReg) (hb4 : pReg.bytes % 4 = 0) :
    plicAplicInfoParser dt rintcs = .ok
      ([CtrlRecord.aplic
          { version := 1, id := 0, numSources := prop32 pNum,
            baseAddress := prop64 pReg,
            size := prop64 { bytes := pReg.bytes, cells := pReg.cells.drop 2 },
            gsiBase := 0, hwId := hwIdAplic }
          (aplicBranch dt 0 s rintcs).1],
       (aplicBranch dt 0 s rintcs).2) := by
  have hstep := plicAplicStep_smode_aplic dt
    { gsiBase := 0, id := 0, extIntcList := [], rintcs := rintcs,
      records := [] } s pNum pReg hap hpl hnum hreg hb4
  have hpost : ∀ st : PlicAplicScanState,
      post.foldlM (plicAplicStep dt) st = .ok st := by
    intro st
    have h := plicAplic_skip_nonmatching dt post [] st hskip2
    simpa using h
  simp only [plicAplicInfoParser, hnodes]
  rw [plicAplic_skip_nonmatching dt pre (s :: post) _ hskip]
  rw [List.foldlM_cons, hstep]
  simp [Except.map, hpost]
  rfl

/-- Witness device tree: two harts (offsets 40 and 42, under a `cpus` node
at offset 41 with one address cell), an M-mode APLIC at offset 10 (first
routed interrupt 11, the machine-external number) and an S-mode APLIC at
offset 20 (both routed interrupts are 9, the supervisor-external sentinel,
through the harts' interrupt controllers at offsets 30 and 31, phandles 1
and 2). -/
def wCpuA : DtNode :=
  { offset := 40, compatible := ["riscv"],
    props := [("reg", { bytes := 4, cells := [0] })] }

def wCpuB : DtNode :=
  { offset := 42, compatible := ["riscv"],
    props := [("reg", { bytes := 4, cells := [1] })] }

def wAplicM : DtNode :=
  { offset := 10, compatible := ["riscv,aplic"],
    props := [("interrupts-extended", { bytes := 8, cells := [1, 11] }),
              ("riscv,num-sources", { bytes := 4, cells := [32] }),
              ("reg", { bytes := 16, cells := [0, 100, 0, 4096] })] }

def wAplicS : DtNode :=
  { offset := 20, compatible := ["riscv,aplic"],
    props := [("interrupts-extended", { bytes := 16, cells := [1, 9, 2, 9] }),
              ("riscv,num-sources", { bytes := 4, cells := [32] }),
              ("reg", { bytes := 16, cells := [0, 200, 0, 4096] })] }

def wDt : DeviceTree :=
  { nodes := [wCpuA, wCpuB, wAplicM, wAplicS],
    phandleToNode := fun ph =>
      if ph = 1 then some 30 else if ph = 2 then some 31 else none,
    parentOf := fun o =>
      if o = 30 then some 40 else if o = 31 then some 42
      else if o = 40 then some 41 else if o = 42 then some 41 else none,
    addressCellsOf := fun o => if o = 41 then 1 else -1 }

def wRintcs : List RintcInfo :=
  [{ flags := 1, hartId := 0, version := 1, acpiProcessorUid := 0,
     extIntcId := 0, imsicBaseAddress := 0, imsicSize := 0 },
   { flags := 1, hartId := 1, version := 1, acpiProcessorUid := 1,
     extIntcId := 0, imsicBaseAddress := 0, imsicSize := 0 }]

theorem plicAplic_smode_only_witness :
    isAplicNode wDt wAplicM = false ∧
    "riscv,aplic" ∈ wAplicM.compatible ∧
    isAplicNode wDt wAplicS = true ∧
    plicAplicInfoParser wDt wRintcs = .ok
      ([CtrlRecord.aplic
          { version := 1, id := 0, numSources := 32, baseAddress := 200,
            size := 4096, gsiBase := 0, hwId := hwIdAplic } 2],
       [{ flags := 1, hartId := 0, version := 1, acpiProcessorUid := 0,
          extIntcId := 0, imsicBaseAddress := 0, imsicSize := 0 },
        { flags := 1, hartId := 1, version := 1, acpiProcessorUid := 1,
          extIntcId := 1, imsicBaseAddress := 0, imsicSize := 0 }]) :=
  ⟨by decide, by decide, by decide,
   plicAplic_smode_only wDt [wCpuA, wCpuB, wAplicM] [] wAplicM wAplicS
     { bytes := 4, cells := [32] } { bytes := 16, cells := [0, 200, 0, 4096] }
     wRintcs rfl (by decide) (by decide) (by decide) (by decide) (by decide)
     (by decide) rfl rfl (by decide)⟩

end Edk2Rhct
